import Mathlib

/-!
# Weather report formatter (`waybar/.config/waybar/scripts/weather.go`)

A shallow embedding of the status-bar weather script.  Go strings that come out
of `encoding/json` are valid UTF-8, so they are represented by Lean `String`s
(sequences of Unicode scalar values).  Byte lengths (`len`) are
`String.utf8ByteSize`; widths counted by `fmt` are rune counts (`String.length`).
Indexing the first element of a slice can fault in Go; the report builder is
therefore a function into `Option`, with `none` standing for the run-time panic.
-/

set_option maxRecDepth 100000

namespace Weather

/-! ## Data model -/

/-- One element of a `weatherDesc` list. -/
structure WeatherDescEntry where
  Value : String
deriving DecidableEq, Repr

/-- One element of `WeatherData.CurrentCondition`. -/
structure CurrentConditionEntry where
  WeatherCode : String
  FeelsLikeC : String
  TempC : String
  WindspeedMiles : String
  Humidity : String
  WeatherDesc : List WeatherDescEntry
deriving DecidableEq, Repr

/-- One element of a day's `Astronomy` list. -/
structure AstronomyEntry where
  Sunrise : String
  Sunset : String
deriving DecidableEq, Repr

/-- One element of a day's `Hourly` list. -/
structure HourlyEntry where
  Time : String
  WeatherCode : String
  FeelsLikeC : String
  ChanceOfFog : String
  ChanceOfFrost : String
  ChanceOfOvercast : String
  ChanceOfRain : String
  ChanceOfSnow : String
  ChanceOfSunshine : String
  ChanceOfThunder : String
  ChanceOfWindy : String
  WeatherDesc : List WeatherDescEntry
deriving DecidableEq, Repr

/-- One element of `WeatherData.Weather`: a forecast day. -/
structure DayEntry where
  Date : String
  MaxtempC : String
  MintempC : String
  Astronomy : List AstronomyEntry
  Hourly : List HourlyEntry
deriving DecidableEq, Repr

/-- The decoded API response (`type WeatherData struct`). -/
structure WeatherData where
  CurrentCondition : List CurrentConditionEntry
  Weather : List DayEntry
deriving DecidableEq, Repr

/-- The record that is serialised and printed (`type OutputData struct`). -/
structure OutputData where
  Text : String
  Tooltip : String
deriving DecidableEq, Repr

/-- The anonymous eight-field struct that `formatChances` takes. -/
structure ChanceFields where
  ChanceOfFog : String
  ChanceOfFrost : String
  ChanceOfOvercast : String
  ChanceOfRain : String
  ChanceOfSnow : String
  ChanceOfSunshine : String
  ChanceOfThunder : String
  ChanceOfWindy : String
deriving DecidableEq, Repr

/-! ## The icon table -/

/-- The entries of `var weatherCodes = map[string]string{...}`, in source order.
A Go map literal has no duplicate keys, so the first match is the only match. -/
def weatherCodesTable : List (String × String) :=
  [ ("113", "☀️"),
    ("116", "⛅️"),
    ("119", "☁️"),
    ("122", "☁️"),
    ("143", "🌫"),
    ("176", "🌦"),
    ("179", "🌧"),
    ("182", "🌧"),
    ("185", "🌧"),
    ("200", "⛈"),
    ("227", "🌨"),
    ("230", "❄️"),
    ("248", "🌫"),
    ("260", "🌫"),
    ("263", "🌦"),
    ("266", "🌦"),
    ("281", "🌧"),
    ("284", "🌧"),
    ("293", "🌦"),
    ("296", "🌦"),
    ("299", "🌧"),
    ("302", "🌧"),
    ("305", "🌧"),
    ("308", "🌧"),
    ("311", "🌧"),
    ("314", "🌧"),
    ("317", "🌧"),
    ("320", "🌨"),
    ("323", "🌨"),
    ("326", "🌨"),
    ("329", "❄️"),
    ("332", "❄️"),
    ("335", "❄️"),
    ("338", "❄️"),
    ("350", "🌧"),
    ("353", "🌦"),
    ("356", "🌧"),
    ("359", "🌧"),
    ("362", "🌧"),
    ("365", "🌧"),
    ("368", "🌨"),
    ("371", "❄️"),
    ("374", "🌧"),
    ("377", "🌧"),
    ("386", "⛈"),
    ("389", "🌩"),
    ("392", "⛈"),
    ("395", "❄️") ]

/-- The keys of the icon table. -/
def weatherCodeKeys : List String := weatherCodesTable.map Prod.fst

/-- The map read `weatherCodes[code]`: the stored icon, or Go's zero value `""`
for a missing key. -/
def weatherCodes (code : String) : String :=
  match weatherCodesTable.lookup code with
  | some icon => icon
  | none => ""

/-! ## Library routines used by the script -/

/-- Go `strings.Replace(s, old, new, -1)` for a non-empty `old`, on the characters of
`s`: scan left to right, replace every non-overlapping occurrence.  The counter is
the number of characters of the current occurrence still to be skipped. -/
def replaceAllChars (old new : List Char) : Nat → List Char → List Char
  | _, [] => []
  | skip + 1, _ :: rest => replaceAllChars old new skip rest
  | 0, c :: rest =>
    if old.isPrefixOf (c :: rest) then new ++ replaceAllChars old new (old.length - 1) rest
    else c :: replaceAllChars old new 0 rest

/-- Go `strings.Replace(s, old, new, -1)` (`old` non-empty).  The pattern used is
ASCII, so matching characters and matching bytes of valid UTF-8 agree. -/
def stringsReplaceAll (s old new : String) : String :=
  ⟨replaceAllChars old.data new.data 0 s.data⟩

/-- The digit loop of `strconv.Atoi`: every character must be an ASCII digit; the
accumulator is `n*10 + digit`. -/
def atoiDigits : Nat → List Char → Option Nat
  | n, [] => some n
  | n, ch :: rest =>
    if '0' ≤ ch ∧ ch ≤ '9' then atoiDigits (n * 10 + (ch.toNat - '0'.toNat)) rest else none

/-- Go `strconv.Atoi` with a 64-bit `int`: an optional sign, then at least one ASCII
digit and nothing else; a value outside the `int64` range is an error as well.
`none` stands for `err != nil`. -/
def atoi (s : String) : Option Int :=
  let neg : Bool := s.data.head? = some '-'
  let digits : List Char :=
    match s.data with
    | '-' :: rest => rest
    | '+' :: rest => rest
    | cs => cs
  if digits = [] then none
  else
    match atoiDigits 0 digits with
    | none => none
    | some n =>
      let v : Int := if neg then -(n : Int) else (n : Int)
      if -(2 : Int) ^ 63 ≤ v ∧ v ≤ (2 : Int) ^ 63 - 1 then some v else none

/-- Go `strings.Join(elems, sep)`: the empty string for no elements, the single
element for one, else the first element followed by `sep` and each next one. -/
def stringsJoin (elems : List String) (sep : String) : String :=
  match elems with
  | [] => ""
  | [e] => e
  | e :: rest => rest.foldl (fun b s => b ++ sep ++ s) e

/-- The padding of `fmt` for `%-Ns` (`padString` with the minus flag): when the
rune count is below the width the string is followed by the missing spaces, else
it is written as it is. -/
def fmtPadRight (width : Nat) (s : String) : String :=
  if width ≤ s.length then s
  else s ++ ⟨List.replicate (width - s.length) ' '⟩

/-! ## The formatters -/

/-- Source `func formatTime(timeStr string) string`; `len` is the byte length. -/
def formatTime (timeStr : String) : String :=
  let cleaned := stringsReplaceAll timeStr "00" ""
  if cleaned.utf8ByteSize = 0 then "24"
  else if cleaned.utf8ByteSize = 1 then "0" ++ cleaned
  else cleaned

/-- Source `func formatTemp(temp string) string`: `fmt.Sprintf("%-3s", temp+"°")`. -/
def formatTemp (temp : String) : String :=
  fmtPadRight 3 (temp ++ "°")

/-- The slice `chanceValues` of `formatChances`. -/
def chanceValues (hour : ChanceFields) : List String :=
  [hour.ChanceOfFog, hour.ChanceOfFrost, hour.ChanceOfOvercast,
   hour.ChanceOfRain, hour.ChanceOfSnow, hour.ChanceOfSunshine,
   hour.ChanceOfThunder, hour.ChanceOfWindy]

/-- The slice `chanceNames` of `formatChances`. -/
def chanceNames : List String :=
  ["Fog", "Frost", "Overcast", "Rain", "Snow", "Sunshine", "Thunder", "Wind"]

/-- The loop `for i, chanceStr := range chanceValues` of `formatChances`, as state
passing: `i` is the loop index, `conditions` the slice built so far. -/
def collectConditions : Nat → List String → List String → List String
  | _, [], conditions => conditions
  | i, chanceStr :: rest, conditions =>
    match atoi chanceStr with
    | some chance =>
      if chance > 0 then
        collectConditions (i + 1) rest
          (conditions ++ [chanceNames.getD i "" ++ " " ++ chanceStr ++ "%"])
      else collectConditions (i + 1) rest conditions
    | none => collectConditions (i + 1) rest conditions

/-- Source `func formatChances(hour struct{...}) string`. -/
def formatChances (hour : ChanceFields) : String :=
  stringsJoin (collectConditions 0 (chanceValues hour) []) ", "

/-! ## The report builder (`main`, after a successful fetch and decode) -/

/-- The `fmt.Sprintf("%s %s %s %s, %s\n", ...)` of one hourly entry.  Reading
`hour.WeatherDesc[0]` faults on an empty list. -/
def hourLine (hour : HourlyEntry) : Option String :=
  match hour.WeatherDesc.head? with
  | none => none
  | some desc =>
    some (formatTime hour.Time ++ " " ++ weatherCodes hour.WeatherCode ++ " " ++
      formatTemp hour.FeelsLikeC ++ " " ++ desc.Value ++ ", " ++
      formatChances
        ⟨hour.ChanceOfFog, hour.ChanceOfFrost, hour.ChanceOfOvercast,
         hour.ChanceOfRain, hour.ChanceOfSnow, hour.ChanceOfSunshine,
         hour.ChanceOfThunder, hour.ChanceOfWindy⟩ ++ "\n")

/-- The test that guards `continue` in the hourly loop: only for day index 0, and
only when the formatted time parses, `hourTime < now.Hour()-2`. -/
def hourSkipped (i nowHour : Nat) (hour : HourlyEntry) : Bool :=
  if i = 0 then
    match atoi (formatTime hour.Time) with
    | some hourTime => decide (hourTime < (nowHour : Int) - 2)
    | none => false
  else false

/-- The loop `for _, hour := range day.Hourly`, threading the tooltip. -/
def hourlyLoop (i nowHour : Nat) : List HourlyEntry → String → Option String
  | [], tooltip => some tooltip
  | hour :: rest, tooltip =>
    if hourSkipped i nowHour hour then hourlyLoop i nowHour rest tooltip
    else
      match hourLine hour with
      | none => none
      | some line => hourlyLoop i nowHour rest (tooltip ++ line)

/-- The loop `for i, day := range weather.Weather`, threading the tooltip; the
first argument is `now.Hour()`, the second the loop index.  Reading
`day.Astronomy[0]` faults on an empty list. -/
def dayLoop (nowHour : Nat) : Nat → List DayEntry → String → Option String
  | _, [], tooltip => some tooltip
  | i, day :: rest, tooltip =>
    let tooltip := tooltip ++ "\n<b>"
    let tooltip :=
      if i = 0 then tooltip ++ "Today, "
      else if i = 1 then tooltip ++ "Tomorrow, "
      else tooltip
    let tooltip := tooltip ++ (day.Date ++ "</b>\n")
    let tooltip := tooltip ++ ("⬆️ " ++ day.MaxtempC ++ "° ⬇️ " ++ day.MintempC ++ "° ")
    match day.Astronomy.head? with
    | none => none
    | some astro =>
      let tooltip := tooltip ++ ("🌅 " ++ astro.Sunrise ++ " 🌇 " ++ astro.Sunset ++ "\n")
      match hourlyLoop i nowHour day.Hourly tooltip with
      | none => none
      | some tooltip => dayLoop nowHour (i + 1) rest tooltip

/-- The body of `main` from `var data OutputData` to the end of the day loop, for
a decoded response and the value of `now.Hour()`; `none` is an index-out-of-range
fault, in which case nothing is printed. -/
def buildReport (weather : WeatherData) (nowHour : Nat) : Option OutputData :=
  match weather.CurrentCondition.head? with
  | none => none
  | some currentCondition =>
    let text := weatherCodes currentCondition.WeatherCode ++ " " ++
      currentCondition.FeelsLikeC ++ "°C"
    match currentCondition.WeatherDesc.head? with
    | none => none
    | some desc =>
      let tooltip := "<b>" ++ desc.Value ++ " " ++ currentCondition.TempC ++ "°C</b>\n"
      let tooltip := tooltip ++ ("Feels like: " ++ currentCondition.FeelsLikeC ++ "°C\n")
      let tooltip := tooltip ++ ("Wind: " ++ currentCondition.WindspeedMiles ++ "mi/h\n")
      let tooltip := tooltip ++ ("Humidity: " ++ currentCondition.Humidity ++ "%\n")
      match dayLoop nowHour 0 weather.Weather tooltip with
      | none => none
      | some tooltip => some ⟨text, tooltip⟩

/-! ## The program -/

/-- What the program writes to standard output: a diagnostic written by
`fmt.Printf`, or the line written by `fmt.Println(string(output))`, where `output`
is the JSON text of the output record. -/
inductive Stdout where
  | diagnostic (text : String)
  | json (line : String)
deriving DecidableEq, Repr

/-- Source `func main()`.  The network and the JSON library are parameters: `get` is
the result of `http.Get` (the body, or the text of the error), `decode` the result of
decoding a body into `WeatherData`, `marshal` the result of `json.Marshal`, and
`nowHour` the value of `now.Hour()`.  The result is everything written to standard
output; an index-out-of-range fault in the report builder ends the run with nothing
written there. -/
def main {Body : Type} (get : Except String Body)
    (decode : Body → Except String WeatherData)
    (marshal : OutputData → Except String String) (nowHour : Nat) : List Stdout :=
  match get with
  | .error err => [.diagnostic ("Error fetching weather data: " ++ err ++ "\n")]
  | .ok body =>
    match decode body with
    | .error err => [.diagnostic ("Error decoding weather data: " ++ err ++ "\n")]
    | .ok weather =>
      match buildReport weather nowHour with
      | none => []
      | some data =>
        match marshal data with
        | .error err => [.diagnostic ("Error marshaling output: " ++ err ++ "\n")]
        | .ok output => [.json (output ++ "\n")]

/-! ## Sample data -/

/-- The hour codes the API uses: `"0"`, `"100"`, ..., `"2300"`. -/
def apiTimes : List String :=
  ["0", "100", "200", "300", "400", "500", "600", "700", "800", "900", "1000", "1100",
   "1200", "1300", "1400", "1500", "1600", "1700", "1800", "1900", "2000", "2100",
   "2200", "2300"]

/-- An hourly entry with the given time, code and rain chance. -/
def sampleHour (time code rain : String) : HourlyEntry :=
  { Time := time, WeatherCode := code, FeelsLikeC := "7",
    ChanceOfFog := "0", ChanceOfFrost := "0", ChanceOfOvercast := "0",
    ChanceOfRain := rain, ChanceOfSnow := "0", ChanceOfSunshine := "0",
    ChanceOfThunder := "0", ChanceOfWindy := "0",
    WeatherDesc := [⟨"Mist"⟩] }

/-- A forecast day with two hourly entries, at `"300"` and `"1200"`. -/
def sampleDay (date : String) : DayEntry :=
  { Date := date, MaxtempC := "9", MintempC := "2",
    Astronomy := [⟨"07:10 AM", "04:40 PM"⟩],
    Hourly := [sampleHour "300" "143" "0", sampleHour "1200" "999" "60"] }

/-- A decoded response with one current-condition record and three days. -/
def sampleWeather : WeatherData :=
  { CurrentCondition :=
      [{ WeatherCode := "113", FeelsLikeC := "8", TempC := "10", WindspeedMiles := "5",
         Humidity := "70", WeatherDesc := [⟨"Sunny"⟩] }],
    Weather := [sampleDay "2024-01-01", sampleDay "2024-01-02", sampleDay "2024-01-03"] }

/-- The report printed for `sampleWeather` when `now.Hour()` is 14: today's entry at
`"300"` is hidden, the one at `"1200"` is shown. -/
def sampleOutput : OutputData :=
  { Text := "☀️ 8°C",
    Tooltip := "<b>Sunny 10°C</b>\nFeels like: 8°C\nWind: 5mi/h\nHumidity: 70%\n" ++
      "\n<b>Today, 2024-01-01</b>\n⬆️ 9° ⬇️ 2° 🌅 07:10 AM 🌇 04:40 PM\n" ++
      "12  7°  Mist, Rain 60%\n" ++
      "\n<b>Tomorrow, 2024-01-02</b>\n⬆️ 9° ⬇️ 2° 🌅 07:10 AM 🌇 04:40 PM\n" ++
      "03 🌫 7°  Mist, \n12  7°  Mist, Rain 60%\n" ++
      "\n<b>2024-01-03</b>\n⬆️ 9° ⬇️ 2° 🌅 07:10 AM 🌇 04:40 PM\n" ++
      "03 🌫 7°  Mist, \n12  7°  Mist, Rain 60%\n" }

/-- A decoded response whose first hourly entry of today, at `"300"`, has an empty
description list; the entry at `"1200"` is complete. -/
def gapWeather : WeatherData :=
  { CurrentCondition :=
      [{ WeatherCode := "113", FeelsLikeC := "8", TempC := "10", WindspeedMiles := "5",
         Humidity := "70", WeatherDesc := [⟨"Sunny"⟩] }],
    Weather :=
      [{ Date := "2024-01-01", MaxtempC := "9", MintempC := "2",
         Astronomy := [⟨"07:10 AM", "04:40 PM"⟩],
         Hourly := [{ sampleHour "300" "143" "0" with WeatherDesc := [] },
                    sampleHour "1200" "999" "60"] }] }

/-- The report printed for `gapWeather` when `now.Hour()` is 10. -/
def gapOutput : OutputData :=
  { Text := "☀️ 8°C",
    Tooltip := "<b>Sunny 10°C</b>\nFeels like: 8°C\nWind: 5mi/h\nHumidity: 70%\n" ++
      "\n<b>Today, 2024-01-01</b>\n⬆️ 9° ⬇️ 2° 🌅 07:10 AM 🌇 04:40 PM\n" ++
      "12  7°  Mist, Rain 60%\n" }

/-! ## Derived notions -/

/-- Relation `IsHourLines i nowHour hourly lines`: `lines` are the lines of the entries of
`hourly` that the filter of day `i` does not skip, one per entry and in order. -/
def IsHourLines (i nowHour : Nat) (hourly : List HourlyEntry) (lines : List String) : Prop :=
  List.Forall₂ (fun hour line => hourLine hour = some line)
    (hourly.filter (fun hour => !hourSkipped i nowHour hour)) lines

/-- The two lines that open the section of `day` at index `i`: the bold date line
with its prefix, and the temperature and sun line. -/
def dayHeading (i : Nat) (day : DayEntry) (astro : AstronomyEntry) : String :=
  "\n<b>" ++ (if i = 0 then "Today, " else if i = 1 then "Tomorrow, " else "") ++
    day.Date ++ "</b>\n" ++
    "⬆️ " ++ day.MaxtempC ++ "° ⬇️ " ++ day.MintempC ++ "° 🌅 " ++ astro.Sunrise ++
    " 🌇 " ++ astro.Sunset ++ "\n"

/-- Relation `IsDaySection nowHour i day s`: `s` is the text the day loop appends for `day`
at index `i`: its heading followed by its hourly lines. -/
def IsDaySection (nowHour i : Nat) (day : DayEntry) (s : String) : Prop :=
  ∃ (astro : AstronomyEntry) (lines : List String),
    day.Astronomy.head? = some astro ∧ IsHourLines i nowHour day.Hourly lines ∧
    s = dayHeading i day astro ++ String.join lines

/-! ## Auxiliary facts about the library routines -/

theorem intercalate_go_eq_foldl (sep : String) (elems : List String) (acc : String) :
    String.intercalate.go acc sep elems = elems.foldl (fun b s => b ++ sep ++ s) acc := by
  induction elems generalizing acc with
  | nil => rfl
  | cons e rest ih => simp [String.intercalate.go, ih]

theorem stringsJoin_eq_intercalate (elems : List String) (sep : String) :
    stringsJoin elems sep = sep.intercalate elems := by
  match elems with
  | [] => rfl
  | [e] => rfl
  | e :: x :: rest =>
    simp [stringsJoin, String.intercalate, intercalate_go_eq_foldl]

theorem collectConditions_eq (values : List String) :
    ∀ (i : Nat) (conditions : List String), i + values.length ≤ chanceNames.length →
      collectConditions i values conditions =
        conditions ++
          (((chanceNames.drop i).zip values).filter
              (fun p => (atoi p.2).any (fun n => decide (0 < n)))).map
            (fun p => p.1 ++ " " ++ p.2 ++ "%") := by
  induction values with
  | nil => intro i conditions _; simp [collectConditions]
  | cons v rest ih =>
    intro i conditions hlen
    have hi : i < chanceNames.length := by simp at hlen; omega
    have hdrop : chanceNames.drop i = chanceNames.getD i "" :: chanceNames.drop (i + 1) := by
      rw [List.drop_eq_getElem_cons hi]
      simp [List.getD, List.getElem?_eq_getElem hi]
    have hrest : i + 1 + rest.length ≤ chanceNames.length := by simp at hlen; omega
    rw [hdrop]
    unfold collectConditions
    cases hv : atoi v with
    | none => simp [hv, ih (i + 1) conditions hrest]
    | some n =>
      by_cases hn : n > 0
      · have hn' : 0 < n := hn
        simp [hv, hn', ih (i + 1) _ hrest]
      · have hn' : ¬ 0 < n := hn
        simp [hv, hn', ih (i + 1) conditions hrest]

theorem weatherCodes_of_not_mem (code : String) (h : code ∉ weatherCodeKeys) :
    weatherCodes code = "" := by
  have key : ∀ (table : List (String × String)), code ∉ table.map Prod.fst →
      table.lookup code = none := by
    intro table
    induction table with
    | nil => intro _; rfl
    | cons p rest ih =>
      intro hp
      obtain ⟨k, v⟩ := p
      simp only [List.map_cons, List.mem_cons, not_or] at hp
      have hne : (code == k) = false := by simpa using hp.1
      simp [List.lookup, hne, ih hp.2]
  unfold weatherCodes
  rw [key weatherCodesTable h]

/-! ## The formatters -/

/-- C1: `formatChances` returns the segments `"<Name> <value>%"` of exactly the
positions whose string parses (by `strconv.Atoi`) as an integer greater than 0, in
the fixed order Fog, Frost, Overcast, Rain, Snow, Sunshine, Thunder, Wind, joined by
`", "`; it is total, a position that does not parse or parses to 0 or less is left
out, and with no survivor the join of the empty list is `""`.  Rain `"80"`, Wind
`"15"` and the rest `"0"` gives `"Rain 80%, Wind 15%"`; all `"0"` gives `""`. -/
theorem C1_formatChances_segments
    (fog frost overcast rain snow sunshine thunder wind : String) :
    formatChances ⟨fog, frost, overcast, rain, snow, sunshine, thunder, wind⟩ =
        ", ".intercalate
          (([("Fog", fog), ("Frost", frost), ("Overcast", overcast), ("Rain", rain),
             ("Snow", snow), ("Sunshine", sunshine), ("Thunder", thunder),
             ("Wind", wind)].filter
              (fun p => (atoi p.2).any (fun n => decide (0 < n)))).map
            (fun p => p.1 ++ " " ++ p.2 ++ "%")) ∧
      formatChances ⟨"0", "0", "0", "80", "0", "0", "0", "15"⟩ = "Rain 80%, Wind 15%" ∧
      formatChances ⟨"0", "0", "0", "0", "0", "0", "0", "0"⟩ = "" := by
  refine ⟨?_, by decide, by decide⟩
  unfold formatChances
  rw [stringsJoin_eq_intercalate, collectConditions_eq _ 0 [] (by simp [chanceValues, chanceNames])]
  rfl

/-- C2: for every hour `h` from 1 to 23, `formatTime` of the decimal text of
`h*100` is `h` written with exactly two decimal digits, zero-padded on the left;
`"300"` gives `"03"`, `"1000"` gives `"10"`, `"1400"` gives `"14"`, `"2000"` gives
`"20"`, `"2300"` gives `"23"`. -/
theorem C2_formatTime_hours (h : Nat) (h1 : 1 ≤ h) (h23 : h ≤ 23) :
    formatTime (toString (h * 100)) =
        String.mk [Nat.digitChar (h / 10), Nat.digitChar (h % 10)] ∧
      formatTime "300" = "03" ∧ formatTime "1000" = "10" ∧ formatTime "1400" = "14" ∧
      formatTime "2000" = "20" ∧ formatTime "2300" = "23" := by
  refine ⟨?_, by decide, by decide, by decide, by decide, by decide⟩
  interval_cases h <;> decide

theorem C2_formatTime_hours_witness :
    formatTime (toString (7 * 100)) =
        String.mk [Nat.digitChar (7 / 10), Nat.digitChar (7 % 10)] ∧
      formatTime "300" = "03" ∧ formatTime "1000" = "10" ∧ formatTime "1400" = "14" ∧
      formatTime "2000" = "20" ∧ formatTime "2300" = "23" :=
  C2_formatTime_hours 7 (by decide) (by decide)

/-- C3, as stated, fails: `formatTime "0"` is not `"24"`. -/
theorem C3_formatTime_zero_not_24 : formatTime "0" ≠ "24" := by decide

/-- C3, amended: `formatTime "0"` is `"00"`; removing `"00"` from `"0"` leaves the
one character `"0"`, which is padded with a zero. -/
theorem C3_formatTime_zero : formatTime "0" = "00" := by decide

/-- C4: for every input in the API set `"0"`, `"100"`, ..., `"2300"`, `formatTime`
returns a string of exactly two characters, both decimal digits. -/
theorem C4_formatTime_two_digits (t : String) (ht : t ∈ apiTimes) :
    (formatTime t).length = 2 ∧ ∀ c ∈ (formatTime t).data, c.isDigit = true := by
  simp only [apiTimes, List.mem_cons, List.mem_singleton, List.not_mem_nil, or_false] at ht
  rcases ht with h | h | h | h | h | h | h | h | h | h | h | h | h | h | h | h | h | h |
    h | h | h | h | h | h <;> subst h <;> decide

theorem C4_formatTime_two_digits_witness :
    (formatTime "2000").length = 2 ∧ ∀ c ∈ (formatTime "2000").data, c.isDigit = true :=
  C4_formatTime_two_digits "2000" (by decide)

/-- C5: for every temperature text `t`, `formatTemp t` is `t`, the degree symbol,
then only spaces (as many as are missing to three characters, none when `t` has two
characters or more), and its length in characters is `max 3 (t.length + 1)`. -/
theorem C5_formatTemp_shape (t : String) :
    formatTemp t = t ++ "°" ++ String.mk (List.replicate (3 - (t.length + 1)) ' ') ∧
      (formatTemp t).length = max 3 (t.length + 1) := by
  have hlen : (t ++ "°").length = t.length + 1 := by
    rw [String.length_append]
    rfl
  have hpad : ∀ k : Nat, (String.mk (List.replicate k ' ')).length = k := fun k =>
    List.length_replicate k ' '
  unfold formatTemp fmtPadRight
  rw [hlen]
  by_cases h : 3 ≤ t.length + 1
  · have h0 : 3 - (t.length + 1) = 0 := by omega
    rw [if_pos h, h0, hlen]
    constructor
    · apply String.ext
      simp
    · omega
  · rw [if_neg h, String.length_append, hlen, hpad]
    constructor
    · rfl
    · omega

/-- C6, as stated, fails: `formatTemp "20"` is not `"20° "` (and `formatTemp "5"`
is not `"5°  "`). -/
theorem C6_formatTemp_examples_fail :
    ¬ (formatTemp "20" = "20° " ∧ formatTemp "5" = "5°  ") := by decide

/-- C6, amended: `formatTemp "20"` is `"20°"`, already three characters wide and so
not padded, and `formatTemp "5"` is `"5°"` followed by one space. -/
theorem C6_formatTemp_examples : formatTemp "20" = "20°" ∧ formatTemp "5" = "5° " := by
  decide

/-- C7: the icon lookup gives `"☀️"` for code `"113"`, and the empty string for
every code that is not a key of the table. -/
theorem C7_icon_lookup (code : String) (h : code ∉ weatherCodeKeys) :
    weatherCodes "113" = "☀️" ∧ weatherCodes code = "" :=
  ⟨by decide, weatherCodes_of_not_mem code h⟩

theorem C7_icon_lookup_witness :
    "999" ∉ weatherCodeKeys ∧ weatherCodes "113" = "☀️" ∧ weatherCodes "999" = "" :=
  ⟨by decide, C7_icon_lookup "999" (by decide)⟩

/-! ## The loops of the report builder -/

theorem string_join_cons (s : String) (ss : List String) :
    String.join (s :: ss) = s ++ String.join ss := by
  apply String.ext
  simp

theorem string_join_nil : String.join [] = "" := rfl

theorem hourlyLoop_eq_some_iff (i nowHour : Nat) (hourly : List HourlyEntry) :
    ∀ (tooltip result : String),
      hourlyLoop i nowHour hourly tooltip = some result ↔
        ∃ lines, IsHourLines i nowHour hourly lines ∧ result = tooltip ++ String.join lines := by
  unfold IsHourLines
  induction hourly with
  | nil =>
    intro tooltip result
    simp only [hourlyLoop, List.filter_nil, List.forall₂_nil_left_iff, Option.some.injEq]
    constructor
    · intro h
      exact ⟨[], rfl, by simp [string_join_nil, ← h]⟩
    · rintro ⟨lines, rfl, h⟩
      simp [h, string_join_nil]
  | cons hour rest ih =>
    intro tooltip result
    unfold hourlyLoop
    by_cases hs : hourSkipped i nowHour hour = true
    · simp only [hs, if_true, List.filter_cons, Bool.not_true, Bool.false_eq_true, if_false]
      exact ih tooltip result
    · have hs' : hourSkipped i nowHour hour = false := by simpa using hs
      simp only [hs', Bool.false_eq_true, if_false, List.filter_cons, Bool.not_false, if_true,
        List.forall₂_cons_left_iff]
      cases hl : hourLine hour with
      | none => simp
      | some line =>
        simp only [ih, Option.some.injEq]
        constructor
        · rintro ⟨lines, hlines, rfl⟩
          exact ⟨line :: lines, ⟨line, lines, rfl, hlines, rfl⟩,
            by rw [string_join_cons, String.append_assoc]⟩
        · rintro ⟨_, ⟨l, lines, hl', hlines, rfl⟩, rfl⟩
          subst hl'
          exact ⟨lines, hlines, by rw [string_join_cons, String.append_assoc]⟩

theorem dayLoop_cons (nowHour i : Nat) (day : DayEntry) (rest : List DayEntry)
    (tooltip : String) :
    dayLoop nowHour i (day :: rest) tooltip =
      match day.Astronomy.head? with
      | none => none
      | some astro =>
        match hourlyLoop i nowHour day.Hourly (tooltip ++ dayHeading i day astro) with
        | none => none
        | some tooltip => dayLoop nowHour (i + 1) rest tooltip := by
  have hlit : ∀ x : String, "° " ++ ("🌅 " ++ x) = "° 🌅 " ++ x := fun x => by
    rw [← String.append_assoc]; rfl
  have hpre : (if i = 0 then tooltip ++ "\n<b>" ++ "Today, "
      else if i = 1 then tooltip ++ "\n<b>" ++ "Tomorrow, " else tooltip ++ "\n<b>") =
      tooltip ++ "\n<b>" ++
        (if i = 0 then "Today, " else if i = 1 then "Tomorrow, " else "") := by
    split
    · rfl
    · split
      · rfl
      · simp
  simp only [dayLoop, hpre, dayHeading]
  cases day.Astronomy.head? with
  | none => rfl
  | some astro => simp only [String.append_assoc, hlit]

theorem dayLoop_eq_some_iff (nowHour : Nat) (days : List DayEntry) :
    ∀ (i : Nat) (tooltip result : String),
      dayLoop nowHour i days tooltip = some result ↔
        ∃ sections,
          List.Forall₂ (fun p s => IsDaySection nowHour p.1 p.2 s) (days.enumFrom i) sections ∧
          result = tooltip ++ String.join sections := by
  induction days with
  | nil =>
    intro i tooltip result
    simp only [dayLoop, List.enumFrom_nil, List.forall₂_nil_left_iff, Option.some.injEq]
    constructor
    · intro h
      exact ⟨[], rfl, by simp [string_join_nil, ← h]⟩
    · rintro ⟨sections, rfl, h⟩
      simp [h, string_join_nil]
  | cons day rest ih =>
    intro i tooltip result
    rw [dayLoop_cons, List.enumFrom_cons]
    constructor
    · intro h
      cases ha : day.Astronomy.head? with
      | none => simp only [ha] at h; exact Option.noConfusion h
      | some astro =>
        simp only [ha] at h
        cases hh : hourlyLoop i nowHour day.Hourly (tooltip ++ dayHeading i day astro) with
        | none => simp only [hh] at h; exact Option.noConfusion h
        | some mid =>
          simp only [hh] at h
          obtain ⟨lines, hlines, rfl⟩ := (hourlyLoop_eq_some_iff i nowHour day.Hourly _ _).1 hh
          obtain ⟨sections, hsec, rfl⟩ := (ih _ _ _).1 h
          refine ⟨(dayHeading i day astro ++ String.join lines) :: sections,
            List.Forall₂.cons ⟨astro, lines, ha, hlines, rfl⟩ hsec, ?_⟩
          simp only [string_join_cons, String.append_assoc]
    · rintro ⟨sections, hsec, rfl⟩
      obtain ⟨s, sections', ⟨astro, lines, ha, hlines, rfl⟩, hrest, rfl⟩ :=
        List.forall₂_cons_left_iff.1 hsec
      have hh := (hourlyLoop_eq_some_iff i nowHour day.Hourly
        (tooltip ++ dayHeading i day astro) _).2 ⟨lines, hlines, rfl⟩
      simp only [ha, hh]
      refine (ih _ _ _).2 ⟨sections', hrest, ?_⟩
      simp only [string_join_cons, String.append_assoc]

theorem forall₂_enumFrom_index {α β : Type} (R : Nat → α → β → Prop) :
    ∀ (l : List α) (k : Nat) (ss : List β),
      List.Forall₂ (fun p s => R p.1 p.2 s) (l.enumFrom k) ss →
        ss.length = l.length ∧
          ∀ (i : Nat) (a : α), l[i]? = some a → ∃ s, ss[i]? = some s ∧ R (k + i) a s := by
  intro l
  induction l with
  | nil =>
    intro k ss h
    simp only [List.enumFrom_nil, List.forall₂_nil_left_iff] at h
    subst h
    exact ⟨rfl, fun i a hi => by simp at hi⟩
  | cons x rest ih =>
    intro k ss h
    rw [List.enumFrom_cons] at h
    obtain ⟨s, ss', hs, hrest, rfl⟩ := List.forall₂_cons_left_iff.1 h
    obtain ⟨hlen, hidx⟩ := ih (k + 1) ss' hrest
    refine ⟨by simp [hlen], ?_⟩
    intro i a hi
    cases i with
    | zero =>
      simp only [List.getElem?_cons_zero, Option.some.injEq] at hi
      subst hi
      exact ⟨s, by simp, hs⟩
    | succ j =>
      simp only [List.getElem?_cons_succ] at hi
      obtain ⟨s', hs', hR⟩ := hidx j a hi
      refine ⟨s', by simpa using hs', ?_⟩
      have : k + (j + 1) = k + 1 + j := by omega
      rw [this]
      exact hR

theorem hourSkipped_not (i nowHour : Nat) (hour : HourlyEntry) :
    (!hourSkipped i nowHour hour) =
      (decide (i ≠ 0) ||
        (atoi (formatTime hour.Time)).all (fun v => decide ((nowHour : Int) - 2 ≤ v))) := by
  unfold hourSkipped
  by_cases hi : i = 0
  · simp only [hi, if_true, ne_eq, not_true_eq_false, decide_False, Bool.false_or]
    cases atoi (formatTime hour.Time) with
    | none => rfl
    | some v =>
      simp only [Option.all_some]
      by_cases hv : v < (nowHour : Int) - 2
      · have : ¬ ((nowHour : Int) - 2 ≤ v) := by omega
        simp [hv, this]
      · have : (nowHour : Int) - 2 ≤ v := by omega
        simp [hv, this]
  · simp [hi]

/-- Everything `buildReport` produces, in one statement: the first
current-condition record and its first description exist, the text and the four
header lines come from them, and the forecast days contribute their sections in
order. -/
theorem buildReport_eq_some_iff (weather : WeatherData) (nowHour : Nat) (out : OutputData) :
    buildReport weather nowHour = some out ↔
      ∃ (cc : CurrentConditionEntry) (desc : WeatherDescEntry) (sections : List String),
        weather.CurrentCondition.head? = some cc ∧ cc.WeatherDesc.head? = some desc ∧
        List.Forall₂ (fun p s => IsDaySection nowHour p.1 p.2 s)
          (weather.Weather.enumFrom 0) sections ∧
        out.Text = weatherCodes cc.WeatherCode ++ " " ++ cc.FeelsLikeC ++ "°C" ∧
        out.Tooltip =
          "<b>" ++ desc.Value ++ " " ++ cc.TempC ++ "°C</b>\n" ++
            ("Feels like: " ++ cc.FeelsLikeC ++ "°C\n") ++
            ("Wind: " ++ cc.WindspeedMiles ++ "mi/h\n") ++
            ("Humidity: " ++ cc.Humidity ++ "%\n") ++ String.join sections := by
  unfold buildReport
  constructor
  · intro h
    cases hc : weather.CurrentCondition.head? with
    | none => simp only [hc] at h; exact Option.noConfusion h
    | some cc =>
      simp only [hc] at h
      cases hd : cc.WeatherDesc.head? with
      | none => simp only [hd] at h; exact Option.noConfusion h
      | some desc =>
        simp only [hd] at h
        cases hl : dayLoop nowHour 0 weather.Weather
            ("<b>" ++ desc.Value ++ " " ++ cc.TempC ++ "°C</b>\n" ++
              ("Feels like: " ++ cc.FeelsLikeC ++ "°C\n") ++
              ("Wind: " ++ cc.WindspeedMiles ++ "mi/h\n") ++
              ("Humidity: " ++ cc.Humidity ++ "%\n")) with
        | none => simp only [hl] at h; exact Option.noConfusion h
        | some tooltip =>
          simp only [hl] at h
          obtain ⟨sections, hsec, rfl⟩ := (dayLoop_eq_some_iff nowHour _ _ _ _).1 hl
          simp only [Option.some.injEq] at h
          subst h
          exact ⟨cc, desc, sections, rfl, hd, hsec, rfl, rfl⟩
  · rintro ⟨cc, desc, sections, hc, hd, hsec, htext, htip⟩
    have hl := (dayLoop_eq_some_iff nowHour weather.Weather 0 _ _).2 ⟨sections, hsec, htip⟩
    obtain ⟨text, tooltip⟩ := out
    simp only at htext hl
    simp only [hc, hd, hl, htext]

/-! ## The report -/

/-- C8: when the report is produced, the current-condition list has a first record
and the text field is the icon of its weather code, one space, its feels-like
temperature and `"°C"`; with a code that is not in the table the text is a space,
the temperature and `"°C"`.  Any other produced report whose response has the same
first current-condition record, whatever its forecast days and current hour, has the
same text. -/
theorem C8_text_field (weather : WeatherData) (nowHour : Nat) (out : OutputData)
    (h : buildReport weather nowHour = some out) :
    ∃ cc : CurrentConditionEntry,
      weather.CurrentCondition.head? = some cc ∧
      out.Text = weatherCodes cc.WeatherCode ++ " " ++ cc.FeelsLikeC ++ "°C" ∧
      (cc.WeatherCode ∉ weatherCodeKeys → out.Text = " " ++ cc.FeelsLikeC ++ "°C") ∧
      ∀ (weather' : WeatherData) (nowHour' : Nat) (out' : OutputData),
        weather'.CurrentCondition.head? = weather.CurrentCondition.head? →
        buildReport weather' nowHour' = some out' → out'.Text = out.Text := by
  obtain ⟨cc, desc, sections, hc, _, _, htext, _⟩ :=
    (buildReport_eq_some_iff weather nowHour out).1 h
  refine ⟨cc, hc, htext, ?_, ?_⟩
  · intro hmiss
    rw [htext, weatherCodes_of_not_mem _ hmiss, String.append_assoc, String.empty_append,
      String.append_assoc]
  · intro weather' nowHour' out' hsame h'
    obtain ⟨cc', _, _, hc', _, _, htext', _⟩ :=
      (buildReport_eq_some_iff weather' nowHour' out').1 h'
    rw [hsame, hc] at hc'
    cases hc'
    rw [htext, htext']

theorem C8_text_field_witness :
    ∃ cc : CurrentConditionEntry,
      sampleWeather.CurrentCondition.head? = some cc ∧
      sampleOutput.Text = weatherCodes cc.WeatherCode ++ " " ++ cc.FeelsLikeC ++ "°C" ∧
      (cc.WeatherCode ∉ weatherCodeKeys → sampleOutput.Text = " " ++ cc.FeelsLikeC ++ "°C") ∧
      ∀ (weather' : WeatherData) (nowHour' : Nat) (out' : OutputData),
        weather'.CurrentCondition.head? = sampleWeather.CurrentCondition.head? →
        buildReport weather' nowHour' = some out' → out'.Text = sampleOutput.Text :=
  C8_text_field sampleWeather 14 sampleOutput (by decide)

/-- C9: when the report is produced, the tooltip is the four header lines followed
by one section per forecast day, in the API's order.  The section of the day at
index `i` is `"\n<b>"`, then `"Today, "` for index 0, `"Tomorrow, "` for index 1 and
nothing for a larger index, then the date and `"</b>\n"`, then the line
`"⬆️ MAX° ⬇️ MIN° 🌅 SUNRISE 🌇 SUNSET\n"` of the day's temperatures and its first
astronomy entry, then the text appended by the hourly loop of that day. -/
theorem C9_day_sections (weather : WeatherData) (nowHour : Nat) (out : OutputData)
    (h : buildReport weather nowHour = some out) :
    ∃ (cc : CurrentConditionEntry) (desc : WeatherDescEntry) (sections : List String),
      weather.CurrentCondition.head? = some cc ∧ cc.WeatherDesc.head? = some desc ∧
      out.Tooltip =
        "<b>" ++ desc.Value ++ " " ++ cc.TempC ++ "°C</b>\n" ++
          ("Feels like: " ++ cc.FeelsLikeC ++ "°C\n") ++
          ("Wind: " ++ cc.WindspeedMiles ++ "mi/h\n") ++
          ("Humidity: " ++ cc.Humidity ++ "%\n") ++ String.join sections ∧
      sections.length = weather.Weather.length ∧
      ∀ (i : Nat) (day : DayEntry), weather.Weather[i]? = some day →
        ∃ (astro : AstronomyEntry) (hourText : String),
          day.Astronomy.head? = some astro ∧
          hourlyLoop i nowHour day.Hourly "" = some hourText ∧
          sections[i]? = some
            ("\n<b>" ++ (if i = 0 then "Today, " else if i = 1 then "Tomorrow, " else "") ++
              day.Date ++ "</b>\n" ++
              "⬆️ " ++ day.MaxtempC ++ "° ⬇️ " ++ day.MintempC ++ "° 🌅 " ++ astro.Sunrise ++
              " 🌇 " ++ astro.Sunset ++ "\n" ++ hourText) := by
  obtain ⟨cc, desc, sections, hc, hd, hsec, _, htip⟩ :=
    (buildReport_eq_some_iff weather nowHour out).1 h
  obtain ⟨hlen, hidx⟩ := forall₂_enumFrom_index (fun i day s => IsDaySection nowHour i day s)
    weather.Weather 0 sections hsec
  refine ⟨cc, desc, sections, hc, hd, htip, hlen, ?_⟩
  intro i day hday
  obtain ⟨s, hs, astro, lines, ha, hlines, rfl⟩ := hidx i day hday
  rw [Nat.zero_add] at hlines
  refine ⟨astro, String.join lines, ha, ?_, ?_⟩
  · exact (hourlyLoop_eq_some_iff i nowHour day.Hourly "" _).2
      ⟨lines, hlines, (String.empty_append _).symm⟩
  · rw [hs, Nat.zero_add]
    rfl

theorem C9_day_sections_witness :
    ∃ (cc : CurrentConditionEntry) (desc : WeatherDescEntry) (sections : List String),
      sampleWeather.CurrentCondition.head? = some cc ∧ cc.WeatherDesc.head? = some desc ∧
      sampleOutput.Tooltip =
        "<b>" ++ desc.Value ++ " " ++ cc.TempC ++ "°C</b>\n" ++
          ("Feels like: " ++ cc.FeelsLikeC ++ "°C\n") ++
          ("Wind: " ++ cc.WindspeedMiles ++ "mi/h\n") ++
          ("Humidity: " ++ cc.Humidity ++ "%\n") ++ String.join sections ∧
      sections.length = sampleWeather.Weather.length ∧
      ∀ (i : Nat) (day : DayEntry), sampleWeather.Weather[i]? = some day →
        ∃ (astro : AstronomyEntry) (hourText : String),
          day.Astronomy.head? = some astro ∧
          hourlyLoop i 14 day.Hourly "" = some hourText ∧
          sections[i]? = some
            ("\n<b>" ++ (if i = 0 then "Today, " else if i = 1 then "Tomorrow, " else "") ++
              day.Date ++ "</b>\n" ++
              "⬆️ " ++ day.MaxtempC ++ "° ⬇️ " ++ day.MintempC ++ "° 🌅 " ++ astro.Sunrise ++
              " 🌇 " ++ astro.Sunset ++ "\n" ++ hourText) :=
  C9_day_sections sampleWeather 14 sampleOutput (by decide)

/-- C10: when the report is produced, the section of each forecast day is its
heading followed by the lines of its hourly entries, one line per emitted entry and
in the entries' order.  In the day at index 0 the emitted entries are exactly those
whose formatted time does not parse as an integer or parses to a value that is at
least `nowHour - 2`; in every day at index 1 or more all entries are emitted,
whatever the hour. -/
theorem C10_today_filter (weather : WeatherData) (nowHour : Nat) (out : OutputData)
    (h : buildReport weather nowHour = some out) :
    ∃ (cc : CurrentConditionEntry) (desc : WeatherDescEntry) (sections : List String),
      weather.CurrentCondition.head? = some cc ∧ cc.WeatherDesc.head? = some desc ∧
      out.Tooltip =
        "<b>" ++ desc.Value ++ " " ++ cc.TempC ++ "°C</b>\n" ++
          ("Feels like: " ++ cc.FeelsLikeC ++ "°C\n") ++
          ("Wind: " ++ cc.WindspeedMiles ++ "mi/h\n") ++
          ("Humidity: " ++ cc.Humidity ++ "%\n") ++ String.join sections ∧
      sections.length = weather.Weather.length ∧
      ∀ (i : Nat) (day : DayEntry), weather.Weather[i]? = some day →
        ∃ (astro : AstronomyEntry) (lines : List String),
          day.Astronomy.head? = some astro ∧
          sections[i]? = some
            ("\n<b>" ++ (if i = 0 then "Today, " else if i = 1 then "Tomorrow, " else "") ++
              day.Date ++ "</b>\n" ++
              "⬆️ " ++ day.MaxtempC ++ "° ⬇️ " ++ day.MintempC ++ "° 🌅 " ++ astro.Sunrise ++
              " 🌇 " ++ astro.Sunset ++ "\n" ++ String.join lines) ∧
          (i = 0 →
            List.Forall₂ (fun hour line => hourLine hour = some line)
              (day.Hourly.filter (fun hour =>
                (atoi (formatTime hour.Time)).all (fun v => decide ((nowHour : Int) - 2 ≤ v))))
              lines) ∧
          (i ≠ 0 → List.Forall₂ (fun hour line => hourLine hour = some line) day.Hourly lines) := by
  obtain ⟨cc, desc, sections, hc, hd, hsec, _, htip⟩ :=
    (buildReport_eq_some_iff weather nowHour out).1 h
  obtain ⟨hlen, hidx⟩ := forall₂_enumFrom_index (fun i day s => IsDaySection nowHour i day s)
    weather.Weather 0 sections hsec
  refine ⟨cc, desc, sections, hc, hd, htip, hlen, ?_⟩
  intro i day hday
  obtain ⟨s, hs, astro, lines, ha, hlines, rfl⟩ := hidx i day hday
  rw [Nat.zero_add] at hlines
  unfold IsHourLines at hlines
  simp only [hourSkipped_not] at hlines
  refine ⟨astro, lines, ha, ?_, ?_, ?_⟩
  · rw [hs, Nat.zero_add]
    rfl
  · intro hi
    simpa [hi] using hlines
  · intro hi
    simpa [hi] using hlines

theorem C10_today_filter_witness :
    ∃ (cc : CurrentConditionEntry) (desc : WeatherDescEntry) (sections : List String),
      sampleWeather.CurrentCondition.head? = some cc ∧ cc.WeatherDesc.head? = some desc ∧
      sampleOutput.Tooltip =
        "<b>" ++ desc.Value ++ " " ++ cc.TempC ++ "°C</b>\n" ++
          ("Feels like: " ++ cc.FeelsLikeC ++ "°C\n") ++
          ("Wind: " ++ cc.WindspeedMiles ++ "mi/h\n") ++
          ("Humidity: " ++ cc.Humidity ++ "%\n") ++ String.join sections ∧
      sections.length = sampleWeather.Weather.length ∧
      ∀ (i : Nat) (day : DayEntry), sampleWeather.Weather[i]? = some day →
        ∃ (astro : AstronomyEntry) (lines : List String),
          day.Astronomy.head? = some astro ∧
          sections[i]? = some
            ("\n<b>" ++ (if i = 0 then "Today, " else if i = 1 then "Tomorrow, " else "") ++
              day.Date ++ "</b>\n" ++
              "⬆️ " ++ day.MaxtempC ++ "° ⬇️ " ++ day.MintempC ++ "° 🌅 " ++ astro.Sunrise ++
              " 🌇 " ++ astro.Sunset ++ "\n" ++ String.join lines) ∧
          (i = 0 →
            List.Forall₂ (fun hour line => hourLine hour = some line)
              (day.Hourly.filter (fun hour =>
                (atoi (formatTime hour.Time)).all (fun v => decide (((14 : Nat) : Int) - 2 ≤ v))))
              lines) ∧
          (i ≠ 0 → List.Forall₂ (fun hour line => hourLine hour = some line) day.Hourly lines) :=
  C10_today_filter sampleWeather 14 sampleOutput (by decide)

/-! ## More on the report -/

theorem buildReport_sections (weather : WeatherData) (nowHour : Nat) (out : OutputData)
    (h : buildReport weather nowHour = some out) :
    ∃ (cc : CurrentConditionEntry) (desc : WeatherDescEntry) (sections : List String),
      weather.CurrentCondition.head? = some cc ∧ cc.WeatherDesc.head? = some desc ∧
      out.Text = weatherCodes cc.WeatherCode ++ " " ++ cc.FeelsLikeC ++ "°C" ∧
      out.Tooltip =
        "<b>" ++ desc.Value ++ " " ++ cc.TempC ++ "°C</b>\n" ++
          ("Feels like: " ++ cc.FeelsLikeC ++ "°C\n") ++
          ("Wind: " ++ cc.WindspeedMiles ++ "mi/h\n") ++
          ("Humidity: " ++ cc.Humidity ++ "%\n") ++ String.join sections ∧
      sections.length = weather.Weather.length ∧
      ∀ (i : Nat) (day : DayEntry), weather.Weather[i]? = some day →
        ∃ s, sections[i]? = some s ∧ IsDaySection nowHour i day s := by
  obtain ⟨cc, desc, sections, hc, hd, hsec, htext, htip⟩ :=
    (buildReport_eq_some_iff weather nowHour out).1 h
  obtain ⟨hlen, hidx⟩ := forall₂_enumFrom_index (fun i day s => IsDaySection nowHour i day s)
    weather.Weather 0 sections hsec
  refine ⟨cc, desc, sections, hc, hd, htext, htip, hlen, ?_⟩
  intro i day hday
  obtain ⟨s, hs, hsect⟩ := hidx i day hday
  rw [Nat.zero_add] at hsect
  exact ⟨s, hs, hsect⟩

theorem hourLine_eq_some_iff (hour : HourlyEntry) (line : String) :
    hourLine hour = some line ↔
      ∃ desc : WeatherDescEntry, hour.WeatherDesc.head? = some desc ∧
        line = formatTime hour.Time ++ " " ++ weatherCodes hour.WeatherCode ++ " " ++
          formatTemp hour.FeelsLikeC ++ " " ++ desc.Value ++ ", " ++
          formatChances
            ⟨hour.ChanceOfFog, hour.ChanceOfFrost, hour.ChanceOfOvercast,
             hour.ChanceOfRain, hour.ChanceOfSnow, hour.ChanceOfSunshine,
             hour.ChanceOfThunder, hour.ChanceOfWindy⟩ ++ "\n" := by
  unfold hourLine
  cases hour.WeatherDesc.head? with
  | none => simp
  | some desc =>
    simp only [Option.some.injEq, exists_eq_left']
    exact eq_comm

/-- C11: when the report is produced, the tooltip begins with exactly the four lines
`"<b>DESC TEMP°C</b>\n"`, `"Feels like: FEELS°C\n"`, `"Wind: WINDmi/h\n"` and
`"Humidity: HUM%\n"`, in this order, built from the first current-condition record
and its first description; what follows is the sections of the forecast days, one
per day and in order, each opening with its day heading. -/
theorem C11_tooltip_header (weather : WeatherData) (nowHour : Nat) (out : OutputData)
    (h : buildReport weather nowHour = some out) :
    ∃ (cc : CurrentConditionEntry) (desc : WeatherDescEntry) (sections : List String),
      weather.CurrentCondition.head? = some cc ∧ cc.WeatherDesc.head? = some desc ∧
      out.Tooltip =
        "<b>" ++ desc.Value ++ " " ++ cc.TempC ++ "°C</b>\n" ++
          "Feels like: " ++ cc.FeelsLikeC ++ "°C\n" ++
          "Wind: " ++ cc.WindspeedMiles ++ "mi/h\n" ++
          "Humidity: " ++ cc.Humidity ++ "%\n" ++ String.join sections ∧
      sections.length = weather.Weather.length ∧
      ∀ (i : Nat) (day : DayEntry), weather.Weather[i]? = some day →
        ∃ (astro : AstronomyEntry) (hourText : String),
          day.Astronomy.head? = some astro ∧
          hourlyLoop i nowHour day.Hourly "" = some hourText ∧
          sections[i]? = some (dayHeading i day astro ++ hourText) := by
  obtain ⟨cc, desc, sections, hc, hd, _, htip, hlen, hidx⟩ :=
    buildReport_sections weather nowHour out h
  refine ⟨cc, desc, sections, hc, hd, ?_, hlen, ?_⟩
  · rw [htip]
    simp only [String.append_assoc]
  · intro i day hday
    obtain ⟨s, hs, astro, lines, ha, hlines, rfl⟩ := hidx i day hday
    exact ⟨astro, String.join lines, ha,
      (hourlyLoop_eq_some_iff i nowHour day.Hourly "" _).2
        ⟨lines, hlines, (String.empty_append _).symm⟩, hs⟩

theorem C11_tooltip_header_witness :
    ∃ (cc : CurrentConditionEntry) (desc : WeatherDescEntry) (sections : List String),
      sampleWeather.CurrentCondition.head? = some cc ∧ cc.WeatherDesc.head? = some desc ∧
      sampleOutput.Tooltip =
        "<b>" ++ desc.Value ++ " " ++ cc.TempC ++ "°C</b>\n" ++
          "Feels like: " ++ cc.FeelsLikeC ++ "°C\n" ++
          "Wind: " ++ cc.WindspeedMiles ++ "mi/h\n" ++
          "Humidity: " ++ cc.Humidity ++ "%\n" ++ String.join sections ∧
      sections.length = sampleWeather.Weather.length ∧
      ∀ (i : Nat) (day : DayEntry), sampleWeather.Weather[i]? = some day →
        ∃ (astro : AstronomyEntry) (hourText : String),
          day.Astronomy.head? = some astro ∧
          hourlyLoop i 14 day.Hourly "" = some hourText ∧
          sections[i]? = some (dayHeading i day astro ++ hourText) :=
  C11_tooltip_header sampleWeather 14 sampleOutput (by decide)

/-- C12: when the report is produced, the section of each forecast day is its
heading followed by exactly one line per hourly entry that the filter does not skip,
in order, and the line of an entry is `formatTime` of its time, a space, the icon of
its weather code (empty on a miss), a space, `formatTemp` of its feels-like
temperature, a space, its first description value, `", "`, `formatChances` of its
eight chance fields, and a newline; with an empty chance summary the line ends with
`", "` before the newline. -/
theorem C12_hour_line (weather : WeatherData) (nowHour : Nat) (out : OutputData)
    (h : buildReport weather nowHour = some out) :
    ∃ (cc : CurrentConditionEntry) (desc : WeatherDescEntry) (sections : List String),
      weather.CurrentCondition.head? = some cc ∧ cc.WeatherDesc.head? = some desc ∧
      out.Tooltip =
        "<b>" ++ desc.Value ++ " " ++ cc.TempC ++ "°C</b>\n" ++
          "Feels like: " ++ cc.FeelsLikeC ++ "°C\n" ++
          "Wind: " ++ cc.WindspeedMiles ++ "mi/h\n" ++
          "Humidity: " ++ cc.Humidity ++ "%\n" ++ String.join sections ∧
      sections.length = weather.Weather.length ∧
      ∀ (i : Nat) (day : DayEntry), weather.Weather[i]? = some day →
        ∃ (astro : AstronomyEntry) (lines : List String),
          day.Astronomy.head? = some astro ∧
          sections[i]? = some (dayHeading i day astro ++ String.join lines) ∧
          List.Forall₂
            (fun hour line =>
              ∃ d : WeatherDescEntry, hour.WeatherDesc.head? = some d ∧
                line = formatTime hour.Time ++ " " ++ weatherCodes hour.WeatherCode ++ " " ++
                  formatTemp hour.FeelsLikeC ++ " " ++ d.Value ++ ", " ++
                  formatChances
                    ⟨hour.ChanceOfFog, hour.ChanceOfFrost, hour.ChanceOfOvercast,
                     hour.ChanceOfRain, hour.ChanceOfSnow, hour.ChanceOfSunshine,
                     hour.ChanceOfThunder, hour.ChanceOfWindy⟩ ++ "\n" ∧
                (formatChances
                    ⟨hour.ChanceOfFog, hour.ChanceOfFrost, hour.ChanceOfOvercast,
                     hour.ChanceOfRain, hour.ChanceOfSnow, hour.ChanceOfSunshine,
                     hour.ChanceOfThunder, hour.ChanceOfWindy⟩ = "" →
                  line = formatTime hour.Time ++ " " ++ weatherCodes hour.WeatherCode ++ " " ++
                    formatTemp hour.FeelsLikeC ++ " " ++ d.Value ++ ", \n"))
            (day.Hourly.filter (fun hour => !hourSkipped i nowHour hour)) lines := by
  obtain ⟨cc, desc, sections, hc, hd, _, htip, hlen, hidx⟩ :=
    buildReport_sections weather nowHour out h
  refine ⟨cc, desc, sections, hc, hd, ?_, hlen, ?_⟩
  · rw [htip]
    simp only [String.append_assoc]
  · intro i day hday
    obtain ⟨s, hs, astro, lines, ha, hlines, rfl⟩ := hidx i day hday
    refine ⟨astro, lines, ha, hs, ?_⟩
    unfold IsHourLines at hlines
    refine hlines.imp ?_
    intro hour line hl
    obtain ⟨d, hd', rfl⟩ := (hourLine_eq_some_iff hour line).1 hl
    have hcomma : ∀ x : String, x ++ ", " ++ "" ++ "\n" = x ++ ", \n" := fun x => by
      rw [String.append_empty, String.append_assoc]
      rfl
    refine ⟨d, hd', rfl, ?_⟩
    intro hchance
    rw [hchance, hcomma]

theorem C12_hour_line_witness :
    ∃ (cc : CurrentConditionEntry) (desc : WeatherDescEntry) (sections : List String),
      sampleWeather.CurrentCondition.head? = some cc ∧ cc.WeatherDesc.head? = some desc ∧
      sampleOutput.Tooltip =
        "<b>" ++ desc.Value ++ " " ++ cc.TempC ++ "°C</b>\n" ++
          "Feels like: " ++ cc.FeelsLikeC ++ "°C\n" ++
          "Wind: " ++ cc.WindspeedMiles ++ "mi/h\n" ++
          "Humidity: " ++ cc.Humidity ++ "%\n" ++ String.join sections ∧
      sections.length = sampleWeather.Weather.length ∧
      ∀ (i : Nat) (day : DayEntry), sampleWeather.Weather[i]? = some day →
        ∃ (astro : AstronomyEntry) (lines : List String),
          day.Astronomy.head? = some astro ∧
          sections[i]? = some (dayHeading i day astro ++ String.join lines) ∧
          List.Forall₂
            (fun hour line =>
              ∃ d : WeatherDescEntry, hour.WeatherDesc.head? = some d ∧
                line = formatTime hour.Time ++ " " ++ weatherCodes hour.WeatherCode ++ " " ++
                  formatTemp hour.FeelsLikeC ++ " " ++ d.Value ++ ", " ++
                  formatChances
                    ⟨hour.ChanceOfFog, hour.ChanceOfFrost, hour.ChanceOfOvercast,
                     hour.ChanceOfRain, hour.ChanceOfSnow, hour.ChanceOfSunshine,
                     hour.ChanceOfThunder, hour.ChanceOfWindy⟩ ++ "\n" ∧
                (formatChances
                    ⟨hour.ChanceOfFog, hour.ChanceOfFrost, hour.ChanceOfOvercast,
                     hour.ChanceOfRain, hour.ChanceOfSnow, hour.ChanceOfSunshine,
                     hour.ChanceOfThunder, hour.ChanceOfWindy⟩ = "" →
                  line = formatTime hour.Time ++ " " ++ weatherCodes hour.WeatherCode ++ " " ++
                    formatTemp hour.FeelsLikeC ++ " " ++ d.Value ++ ", \n"))
            (day.Hourly.filter (fun hour => !hourSkipped i 14 hour)) lines :=
  C12_hour_line sampleWeather 14 sampleOutput (by decide)

/-! ## When the report is produced -/

theorem head?_eq_none_iff_nil {α : Type} (l : List α) : l.head? = none ↔ l = [] := by
  cases l <;> simp

theorem head?_isSome_iff_ne_nil {α : Type} (l : List α) :
    (∃ a, l.head? = some a) ↔ l ≠ [] := by
  cases l <;> simp

theorem hourLine_isSome_iff (hour : HourlyEntry) :
    (hourLine hour).isSome = true ↔ hour.WeatherDesc ≠ [] := by
  unfold hourLine
  cases hd : hour.WeatherDesc with
  | nil => simp
  | cons d rest => simp

theorem hourlyLoop_isSome_iff (i nowHour : Nat) (hourly : List HourlyEntry) :
    ∀ tooltip : String,
      (hourlyLoop i nowHour hourly tooltip).isSome = true ↔
        ∀ hour ∈ hourly, hourSkipped i nowHour hour = false → hour.WeatherDesc ≠ [] := by
  induction hourly with
  | nil => intro tooltip; simp [hourlyLoop]
  | cons hour rest ih =>
    intro tooltip
    unfold hourlyLoop
    by_cases hs : hourSkipped i nowHour hour = true
    · simp only [hs, if_true, List.mem_cons, forall_eq_or_imp, Bool.true_eq_false, false_imp_iff,
        true_and]
      exact ih tooltip
    · have hs' : hourSkipped i nowHour hour = false := by simpa using hs
      simp only [hs', Bool.false_eq_true, if_false, List.mem_cons, forall_eq_or_imp, true_imp_iff]
      cases hl : hourLine hour with
      | none =>
        have hne : ¬ hour.WeatherDesc ≠ [] := by
          rw [← hourLine_isSome_iff, hl]
          simp
        simp [hne]
      | some line =>
        have hne : hour.WeatherDesc ≠ [] := by
          rw [← hourLine_isSome_iff, hl]
          rfl
        simp only [ih, hne, ne_eq, not_false_eq_true, true_and]

theorem dayLoop_isSome_iff (nowHour : Nat) (days : List DayEntry) :
    ∀ (i : Nat) (tooltip : String),
      (dayLoop nowHour i days tooltip).isSome = true ↔
        ∀ (k : Nat) (day : DayEntry), days[k]? = some day →
          day.Astronomy ≠ [] ∧
            ∀ hour ∈ day.Hourly, hourSkipped (i + k) nowHour hour = false →
              hour.WeatherDesc ≠ [] := by
  induction days with
  | nil => intro i tooltip; simp [dayLoop]
  | cons day rest ih =>
    intro i tooltip
    rw [dayLoop_cons]
    have hsplit : (∀ (k : Nat) (d : DayEntry), (day :: rest)[k]? = some d →
          d.Astronomy ≠ [] ∧
            ∀ hour ∈ d.Hourly, hourSkipped (i + k) nowHour hour = false →
              hour.WeatherDesc ≠ []) ↔
        (day.Astronomy ≠ [] ∧
            ∀ hour ∈ day.Hourly, hourSkipped i nowHour hour = false → hour.WeatherDesc ≠ []) ∧
          ∀ (k : Nat) (d : DayEntry), rest[k]? = some d →
            d.Astronomy ≠ [] ∧
              ∀ hour ∈ d.Hourly, hourSkipped (i + 1 + k) nowHour hour = false →
                hour.WeatherDesc ≠ [] := by
      constructor
      · intro hall
        refine ⟨by simpa using hall 0 day (by simp), ?_⟩
        intro k d hk
        have := hall (k + 1) d (by simpa using hk)
        have he : i + (k + 1) = i + 1 + k := by omega
        rwa [he] at this
      · rintro ⟨h0, hrest⟩ k d hk
        cases k with
        | zero =>
          simp only [List.getElem?_cons_zero, Option.some.injEq] at hk
          subst hk
          simpa using h0
        | succ j =>
          simp only [List.getElem?_cons_succ] at hk
          have := hrest j d hk
          have he : i + (j + 1) = i + 1 + j := by omega
          rwa [he]
    rw [hsplit]
    cases ha : day.Astronomy.head? with
    | none =>
      have hnil : day.Astronomy = [] := (head?_eq_none_iff_nil _).1 ha
      simp [hnil]
    | some astro =>
      have hne : day.Astronomy ≠ [] := (head?_isSome_iff_ne_nil _).1 ⟨astro, ha⟩
      simp only
      cases hh : hourlyLoop i nowHour day.Hourly (tooltip ++ dayHeading i day astro) with
      | none =>
        have hno : ¬ ∀ hour ∈ day.Hourly, hourSkipped i nowHour hour = false →
            hour.WeatherDesc ≠ [] := by
          rw [← hourlyLoop_isSome_iff i nowHour day.Hourly (tooltip ++ dayHeading i day astro), hh]
          simp
        simp [hno]
      | some mid =>
        have hyes : ∀ hour ∈ day.Hourly, hourSkipped i nowHour hour = false →
            hour.WeatherDesc ≠ [] := by
          rw [← hourlyLoop_isSome_iff i nowHour day.Hourly (tooltip ++ dayHeading i day astro), hh]
          rfl
        simp only [ih]
        constructor
        · intro hrest
          exact ⟨⟨hne, hyes⟩, hrest⟩
        · intro hall
          exact hall.2

theorem buildReport_isSome_iff (weather : WeatherData) (nowHour : Nat) :
    (buildReport weather nowHour).isSome = true ↔
      (∃ cc, weather.CurrentCondition.head? = some cc ∧ cc.WeatherDesc ≠ []) ∧
        ∀ (i : Nat) (day : DayEntry), weather.Weather[i]? = some day →
          day.Astronomy ≠ [] ∧
            ∀ hour ∈ day.Hourly, hourSkipped i nowHour hour = false →
              hour.WeatherDesc ≠ [] := by
  unfold buildReport
  cases hc : weather.CurrentCondition.head? with
  | none => simp
  | some cc =>
    simp only
    cases hd : cc.WeatherDesc.head? with
    | none =>
      have hnil : cc.WeatherDesc = [] := (head?_eq_none_iff_nil _).1 hd
      simp [hnil]
    | some desc =>
      have hne : cc.WeatherDesc ≠ [] := (head?_isSome_iff_ne_nil _).1 ⟨desc, hd⟩
      simp only [Option.some.injEq, exists_eq_left', hne, ne_eq, not_false_eq_true, true_and]
      have hday := dayLoop_isSome_iff nowHour weather.Weather 0
        ("<b>" ++ desc.Value ++ " " ++ cc.TempC ++ "°C</b>\n" ++
          ("Feels like: " ++ cc.FeelsLikeC ++ "°C\n") ++
          ("Wind: " ++ cc.WindspeedMiles ++ "mi/h\n") ++
          ("Humidity: " ++ cc.Humidity ++ "%\n"))
      simp only [Nat.zero_add] at hday
      rw [← hday]
      cases dayLoop nowHour 0 weather.Weather
        ("<b>" ++ desc.Value ++ " " ++ cc.TempC ++ "°C</b>\n" ++
          ("Feels like: " ++ cc.FeelsLikeC ++ "°C\n") ++
          ("Wind: " ++ cc.WindspeedMiles ++ "mi/h\n") ++
          ("Humidity: " ++ cc.Humidity ++ "%\n")) with
      | none => simp
      | some t => simp

/-- C13: with the first-element reads as `Option`, the report builder produces an
output record exactly when the current-condition list is non-empty, its first
record's description list is non-empty, every forecast day has an astronomy entry,
and every hourly entry that the today filter does not skip has a non-empty
description list; otherwise it faults (`none`).  An empty current-condition list
always faults, and when all of these lists are non-empty the builder never
faults. -/
theorem C13_report_produced_iff (weather : WeatherData) (nowHour : Nat) :
    ((∃ out, buildReport weather nowHour = some out) ↔
        (∃ cc, weather.CurrentCondition.head? = some cc ∧ cc.WeatherDesc ≠ []) ∧
        (∀ day ∈ weather.Weather, day.Astronomy ≠ []) ∧
        (∀ (i : Nat) (day : DayEntry), weather.Weather[i]? = some day →
          ∀ hour ∈ day.Hourly, hourSkipped i nowHour hour = false →
            hour.WeatherDesc ≠ [])) ∧
      (buildReport weather nowHour = none ↔
        ¬ ((∃ cc, weather.CurrentCondition.head? = some cc ∧ cc.WeatherDesc ≠ []) ∧
          (∀ day ∈ weather.Weather, day.Astronomy ≠ []) ∧
          (∀ (i : Nat) (day : DayEntry), weather.Weather[i]? = some day →
            ∀ hour ∈ day.Hourly, hourSkipped i nowHour hour = false →
              hour.WeatherDesc ≠ []))) ∧
      (weather.CurrentCondition = [] → buildReport weather nowHour = none) ∧
      (weather.CurrentCondition ≠ [] →
        (∀ cc ∈ weather.CurrentCondition, cc.WeatherDesc ≠ []) →
        (∀ day ∈ weather.Weather, day.Astronomy ≠ [] ∧
          ∀ hour ∈ day.Hourly, hour.WeatherDesc ≠ []) →
        ∃ out, buildReport weather nowHour = some out) := by
  have hmain : (∃ out, buildReport weather nowHour = some out) ↔
      (∃ cc, weather.CurrentCondition.head? = some cc ∧ cc.WeatherDesc ≠ []) ∧
      (∀ day ∈ weather.Weather, day.Astronomy ≠ []) ∧
      (∀ (i : Nat) (day : DayEntry), weather.Weather[i]? = some day →
        ∀ hour ∈ day.Hourly, hourSkipped i nowHour hour = false →
          hour.WeatherDesc ≠ []) := by
    rw [← Option.isSome_iff_exists, buildReport_isSome_iff]
    constructor
    · rintro ⟨hcc, hdays⟩
      refine ⟨hcc, ?_, fun i day hi => (hdays i day hi).2⟩
      intro day hday
      obtain ⟨i, hi⟩ := List.getElem?_of_mem hday
      exact (hdays i day hi).1
    · rintro ⟨hcc, hastro, hhours⟩
      exact ⟨hcc, fun i day hi => ⟨hastro day (List.getElem?_mem hi), hhours i day hi⟩⟩
  refine ⟨hmain, ?_, ?_, ?_⟩
  · rw [← hmain]
    cases buildReport weather nowHour <;> simp
  · intro hnil
    unfold buildReport
    rw [hnil]
    rfl
  · intro hne hdesc hdays
    refine hmain.2 ⟨?_, fun day hday => (hdays day hday).1, ?_⟩
    · obtain ⟨cc, hcc⟩ := (head?_isSome_iff_ne_nil _).2 hne
      exact ⟨cc, hcc, hdesc cc (List.mem_of_mem_head? hcc)⟩
    · intro i day hi hour hhour _
      exact (hdays day (List.getElem?_mem hi)).2 hour hhour

/-! ## Failures of the fetch and of the decode -/

/-- C14: when the decode fails, the program writes only the diagnostic that starts
with `"Error decoding weather data: "`, and when the fetch fails only the one that
starts with `"Error fetching weather data: "`; in neither case is a JSON output line
written, whatever the serialiser and the current hour are. -/
theorem C14_fetch_decode_failures {Body : Type} (decode : Body → Except String WeatherData)
    (marshal : OutputData → Except String String) (nowHour : Nat) (body : Body)
    (fetchErr decodeErr : String) (hdecode : decode body = .error decodeErr) :
    main (.error fetchErr) decode marshal nowHour =
        [.diagnostic ("Error fetching weather data: " ++ fetchErr ++ "\n")] ∧
      main (.ok body) decode marshal nowHour =
        [.diagnostic ("Error decoding weather data: " ++ decodeErr ++ "\n")] ∧
      (∀ line, Stdout.json line ∉ main (.error fetchErr) decode marshal nowHour) ∧
      (∀ line, Stdout.json line ∉ main (.ok body) decode marshal nowHour) := by
  have hfetch : main (.error fetchErr) decode marshal nowHour =
      [.diagnostic ("Error fetching weather data: " ++ fetchErr ++ "\n")] := rfl
  have hdec : main (.ok body) decode marshal nowHour =
      [.diagnostic ("Error decoding weather data: " ++ decodeErr ++ "\n")] := by
    simp only [main, hdecode]
  refine ⟨hfetch, hdec, ?_, ?_⟩
  · intro line
    rw [hfetch]
    simp
  · intro line
    rw [hdec]
    simp

theorem C14_fetch_decode_failures_witness :
    main (Except.error "dial tcp: no route to host" : Except String String)
          (fun _ => Except.error "unexpected EOF") (fun _ => Except.ok "{}") 14 =
        [.diagnostic ("Error fetching weather data: " ++ "dial tcp: no route to host" ++ "\n")] ∧
      main (Except.ok "<html>" : Except String String)
          (fun _ => Except.error "unexpected EOF") (fun _ => Except.ok "{}") 14 =
        [.diagnostic ("Error decoding weather data: " ++ "unexpected EOF" ++ "\n")] ∧
      (∀ line, Stdout.json line ∉
        main (Except.error "dial tcp: no route to host" : Except String String)
          (fun _ => Except.error "unexpected EOF") (fun _ => Except.ok "{}") 14) ∧
      (∀ line, Stdout.json line ∉
        main (Except.ok "<html>" : Except String String)
          (fun _ => Except.error "unexpected EOF") (fun _ => Except.ok "{}") 14) :=
  C14_fetch_decode_failures (fun _ => Except.error "unexpected EOF") (fun _ => Except.ok "{}") 14
    "<html>" "dial tcp: no route to host" "unexpected EOF" rfl

/-! ## The time codes of the API -/

/-- C15: for every input in the API set `"0"`, `"100"`, ..., `"2300"`, removing every
`"00"` leaves a non-empty string (its byte length is not 0), so the branch of
`formatTime` that returns `"24"` is not taken, and `formatTime` does not return
`"24"`. -/
theorem C15_empty_branch_unreachable (t : String) (ht : t ∈ apiTimes) :
    stringsReplaceAll t "00" "" ≠ "" ∧
      (stringsReplaceAll t "00" "").utf8ByteSize ≠ 0 ∧
      formatTime t ≠ "24" := by
  simp only [apiTimes, List.mem_cons, List.mem_singleton, List.not_mem_nil, or_false] at ht
  rcases ht with h | h | h | h | h | h | h | h | h | h | h | h | h | h | h | h | h | h |
    h | h | h | h | h | h <;> subst h <;> decide

theorem C15_empty_branch_unreachable_witness :
    stringsReplaceAll "0" "00" "" ≠ "" ∧
      (stringsReplaceAll "0" "00" "").utf8ByteSize ≠ 0 ∧
      formatTime "0" ≠ "24" :=
  C15_empty_branch_unreachable "0" (by decide)

theorem hourSkipped_today_api (nowHour : Nat) (hle : nowHour ≤ 2) (hour : HourlyEntry)
    (ht : hour.Time ∈ apiTimes) : hourSkipped 0 nowHour hour = false := by
  have key : ∀ t ∈ apiTimes,
      (match atoi (formatTime t) with
        | some hourTime => decide (hourTime < (nowHour : Int) - 2)
        | none => false) = false := by
    intro t htm
    have hnon : (atoi (formatTime t)).all (fun v => decide (0 ≤ v)) = true := by
      simp only [apiTimes, List.mem_cons, List.mem_singleton, List.not_mem_nil, or_false] at htm
      rcases htm with h | h | h | h | h | h | h | h | h | h | h | h | h | h | h | h | h | h |
        h | h | h | h | h | h <;> subst h <;> decide
    cases hv : atoi (formatTime t) with
    | none => rfl
    | some v =>
      rw [hv] at hnon
      simp only [Option.all_some, decide_eq_true_eq] at hnon
      simp only [decide_eq_false_iff_not, not_lt]
      omega
  unfold hourSkipped
  simp only [if_true]
  exact key hour.Time ht

/-- C16: in today's section (day index 0) the entry with time code `"0"` formats to
`"00"`, which parses to 0; it is not skipped exactly when the current hour is 2 or
less, so the hourly loop appends its line then and passes over it for every later
hour; and when the current hour is 2 or less no entry of today whose time code is in
the API set is skipped. -/
theorem C16_midnight_today (nowHour : Nat) (hour : HourlyEntry) (hzero : hour.Time = "0") :
    formatTime hour.Time = "00" ∧ atoi (formatTime hour.Time) = some 0 ∧
      (hourSkipped 0 nowHour hour = false ↔ nowHour ≤ 2) ∧
      (hourSkipped 0 nowHour hour = true ↔ 3 ≤ nowHour) ∧
      (∀ (rest : List HourlyEntry) (tooltip : String),
        hourlyLoop 0 nowHour (hour :: rest) tooltip =
          if nowHour ≤ 2 then
            (hourLine hour).bind (fun line => hourlyLoop 0 nowHour rest (tooltip ++ line))
          else hourlyLoop 0 nowHour rest tooltip) ∧
      (nowHour ≤ 2 → ∀ other : HourlyEntry, other.Time ∈ apiTimes →
        hourSkipped 0 nowHour other = false) := by
  have hfmt : formatTime hour.Time = "00" := by rw [hzero]; decide
  have hparse : atoi (formatTime hour.Time) = some 0 := by rw [hfmt]; decide
  have hskip : hourSkipped 0 nowHour hour = decide (3 ≤ nowHour) := by
    unfold hourSkipped
    simp only [if_true, hparse]
    by_cases h3 : 3 ≤ nowHour
    · have : (0 : Int) < (nowHour : Int) - 2 := by omega
      simp [h3, this]
    · have : ¬ (0 : Int) < (nowHour : Int) - 2 := by omega
      simp [h3, this]
  refine ⟨hfmt, hparse, ?_, ?_, ?_, ?_⟩
  · rw [hskip]
    simp only [decide_eq_false_iff_not, not_le]
    omega
  · rw [hskip]
    simp
  · intro rest tooltip
    rw [hourlyLoop, hskip]
    by_cases h3 : 3 ≤ nowHour
    · have h2 : ¬ nowHour ≤ 2 := by omega
      simp [h3, h2]
    · have h2 : nowHour ≤ 2 := by omega
      simp only [h3, decide_False, Bool.false_eq_true, if_false, h2, if_true]
      cases hourLine hour <;> rfl
  · intro hle other hother
    exact hourSkipped_today_api nowHour hle other hother

theorem C16_midnight_today_witness :
    formatTime (sampleHour "0" "113" "0").Time = "00" ∧
      atoi (formatTime (sampleHour "0" "113" "0").Time) = some 0 ∧
      (hourSkipped 0 2 (sampleHour "0" "113" "0") = false ↔ 2 ≤ 2) ∧
      (hourSkipped 0 2 (sampleHour "0" "113" "0") = true ↔ 3 ≤ 2) ∧
      (∀ (rest : List HourlyEntry) (tooltip : String),
        hourlyLoop 0 2 (sampleHour "0" "113" "0" :: rest) tooltip =
          if 2 ≤ 2 then
            (hourLine (sampleHour "0" "113" "0")).bind
              (fun line => hourlyLoop 0 2 rest (tooltip ++ line))
          else hourlyLoop 0 2 rest tooltip) ∧
      (2 ≤ 2 → ∀ other : HourlyEntry, other.Time ∈ apiTimes →
        hourSkipped 0 2 other = false) :=
  C16_midnight_today 2 (sampleHour "0" "113" "0") rfl

/-! ## The text of a chance segment -/

theorem formatChances_eq_intercalate
    (fog frost overcast rain snow sunshine thunder wind : String) :
    formatChances ⟨fog, frost, overcast, rain, snow, sunshine, thunder, wind⟩ =
      ", ".intercalate
        (([("Fog", fog), ("Frost", frost), ("Overcast", overcast), ("Rain", rain),
           ("Snow", snow), ("Sunshine", sunshine), ("Thunder", thunder),
           ("Wind", wind)].filter
            (fun p => (atoi p.2).any (fun n => decide (0 < n)))).map
          (fun p => p.1 ++ " " ++ p.2 ++ "%")) := by
  unfold formatChances
  rw [stringsJoin_eq_intercalate,
    collectConditions_eq _ 0 [] (by simp [chanceValues, chanceNames])]
  rfl

/-- C17: `formatChances` prints the original field text of a survivor, not the
parsed number: for every field text that parses to a positive integer, the segment
of its position is the condition name, a space, that exact text and `"%"`; with the
text in the Rain field and `"0"` elsewhere the result is `"Rain "`, the text and
`"%"`, so `"080"` gives `"Rain 080%"` and `"+80"` gives `"Rain +80%"`. -/
theorem C17_original_text
    (fog frost overcast rain snow sunshine thunder wind name text : String) (n : Int)
    (hmem : (name, text) ∈
      [("Fog", fog), ("Frost", frost), ("Overcast", overcast), ("Rain", rain),
       ("Snow", snow), ("Sunshine", sunshine), ("Thunder", thunder), ("Wind", wind)])
    (hparse : atoi text = some n) (hpos : 0 < n) :
    formatChances ⟨fog, frost, overcast, rain, snow, sunshine, thunder, wind⟩ =
        ", ".intercalate
          (([("Fog", fog), ("Frost", frost), ("Overcast", overcast), ("Rain", rain),
             ("Snow", snow), ("Sunshine", sunshine), ("Thunder", thunder),
             ("Wind", wind)].filter
              (fun p => (atoi p.2).any (fun n => decide (0 < n)))).map
            (fun p => p.1 ++ " " ++ p.2 ++ "%")) ∧
      name ++ " " ++ text ++ "%" ∈
        (([("Fog", fog), ("Frost", frost), ("Overcast", overcast), ("Rain", rain),
           ("Snow", snow), ("Sunshine", sunshine), ("Thunder", thunder),
           ("Wind", wind)].filter
            (fun p => (atoi p.2).any (fun n => decide (0 < n)))).map
          (fun p => p.1 ++ " " ++ p.2 ++ "%")) ∧
      formatChances ⟨"0", "0", "0", text, "0", "0", "0", "0"⟩ = "Rain " ++ text ++ "%" ∧
      formatChances ⟨"0", "0", "0", "080", "0", "0", "0", "0"⟩ = "Rain 080%" ∧
      formatChances ⟨"0", "0", "0", "+80", "0", "0", "0", "0"⟩ = "Rain +80%" := by
  refine ⟨formatChances_eq_intercalate _ _ _ _ _ _ _ _, ?_, ?_, by decide, by decide⟩
  · refine List.mem_map.2 ⟨(name, text), List.mem_filter.2 ⟨hmem, ?_⟩, rfl⟩
    simp [hparse, hpos]
  · have h0 : atoi "0" = some 0 := by decide
    rw [formatChances_eq_intercalate]
    simp only [List.filter, h0, hparse, Option.any_some, hpos, decide_True, lt_self_iff_false,
      decide_False, List.map_cons, List.map_nil]
    simp only [String.intercalate, String.intercalate.go]
    rw [String.append_assoc "Rain" " " text]
    rfl

theorem C17_original_text_witness :
    formatChances ⟨"0", "x", "-5", "007", "0", "0", "0", "+15"⟩ =
        ", ".intercalate
          (([("Fog", "0"), ("Frost", "x"), ("Overcast", "-5"), ("Rain", "007"),
             ("Snow", "0"), ("Sunshine", "0"), ("Thunder", "0"),
             ("Wind", "+15")].filter
              (fun p => (atoi p.2).any (fun n => decide (0 < n)))).map
            (fun p => p.1 ++ " " ++ p.2 ++ "%")) ∧
      "Wind" ++ " " ++ "+15" ++ "%" ∈
        (([("Fog", "0"), ("Frost", "x"), ("Overcast", "-5"), ("Rain", "007"),
           ("Snow", "0"), ("Sunshine", "0"), ("Thunder", "0"),
           ("Wind", "+15")].filter
            (fun p => (atoi p.2).any (fun n => decide (0 < n)))).map
          (fun p => p.1 ++ " " ++ p.2 ++ "%")) ∧
      formatChances ⟨"0", "0", "0", "+15", "0", "0", "0", "0"⟩ = "Rain " ++ "+15" ++ "%" ∧
      formatChances ⟨"0", "0", "0", "080", "0", "0", "0", "0"⟩ = "Rain 080%" ∧
      formatChances ⟨"0", "0", "0", "+80", "0", "0", "0", "0"⟩ = "Rain +80%" :=
  C17_original_text "0" "x" "-5" "007" "0" "0" "0" "+15" "Wind" "+15" 15
    (by decide) (by decide) (by decide)

/-! ## The report at two hours -/

theorem hourSkipped_mono (i hour1 hour2 : Nat) (hle : hour1 ≤ hour2) (hour : HourlyEntry)
    (h : hourSkipped i hour2 hour = false) : hourSkipped i hour1 hour = false := by
  unfold hourSkipped at h ⊢
  by_cases hi : i = 0
  · simp only [hi, if_true] at h ⊢
    cases hv : atoi (formatTime hour.Time) with
    | none => rfl
    | some v =>
      rw [hv] at h
      simp only [decide_eq_false_iff_not, not_lt] at h ⊢
      omega
  · simp [hi]

theorem hourSkipped_later_day (i nowHour : Nat) (hi : i ≠ 0) (hour : HourlyEntry) :
    hourSkipped i nowHour hour = false := by
  simp [hourSkipped, hi]

theorem forall₂_hourLine_eq_filterMap (hours : List HourlyEntry) (lines : List String)
    (h : List.Forall₂ (fun hour line => hourLine hour = some line) hours lines) :
    lines = hours.filterMap hourLine := by
  induction h with
  | nil => rfl
  | cons hl _ ih => rw [List.filterMap_cons, hl, ← ih]

theorem isHourLines_later_day (i hour1 hour2 : Nat) (hi : i ≠ 0) (hourly : List HourlyEntry)
    (lines1 lines2 : List String) (h1 : IsHourLines i hour1 hourly lines1)
    (h2 : IsHourLines i hour2 hourly lines2) : lines1 = lines2 := by
  unfold IsHourLines at h1 h2
  simp only [hourSkipped_later_day _ _ hi] at h1 h2
  rw [forall₂_hourLine_eq_filterMap _ _ h1, forall₂_hourLine_eq_filterMap _ _ h2]

theorem isHourLines_sublist (i hour1 hour2 : Nat) (hle : hour1 ≤ hour2)
    (hourly : List HourlyEntry) (lines1 lines2 : List String)
    (h1 : IsHourLines i hour1 hourly lines1) (h2 : IsHourLines i hour2 hourly lines2) :
    lines2.Sublist lines1 := by
  unfold IsHourLines at h1 h2
  rw [forall₂_hourLine_eq_filterMap _ _ h1, forall₂_hourLine_eq_filterMap _ _ h2]
  apply List.Sublist.filterMap
  have hfilter : hourly.filter (fun hour => !hourSkipped i hour2 hour) =
      (hourly.filter (fun hour => !hourSkipped i hour1 hour)).filter
        (fun hour => !hourSkipped i hour2 hour) := by
    rw [List.filter_filter]
    apply List.filter_congr
    intro hour _
    cases h2s : hourSkipped i hour2 hour with
    | true => rfl
    | false => simp [hourSkipped_mono i hour1 hour2 hle hour h2s]
  rw [hfilter]
  exact List.filter_sublist _

/-- C18, as stated for every decoded response, fails: for `gapWeather` the report at
hour 10 is produced and shows today's line of the entry at `"1200"`, while at hour 0
the builder faults on the entry at `"300"` and nothing is shown. -/
theorem C18_fault_at_earlier_hour :
    buildReport gapWeather 0 = none ∧ buildReport gapWeather 10 = some gapOutput := by
  decide

/-- C18, amended: when the report is produced at hour `hour1` and `hour1 ≤ hour2`,
the report is produced at `hour2` as well, with the same text field and the same
tooltip header; the sections of all days at index 1 or more are the same at both
hours; and in the section of day 0, which has the same heading at both hours, the
hourly lines shown at `hour2` are a sublist of those shown at `hour1`. -/
theorem C18_hour_monotone (weather : WeatherData) (hour1 hour2 : Nat) (out1 : OutputData)
    (hle : hour1 ≤ hour2) (h1 : buildReport weather hour1 = some out1) :
    ∃ (out2 : OutputData) (cc : CurrentConditionEntry) (desc : WeatherDescEntry)
      (sections1 sections2 : List String),
      buildReport weather hour2 = some out2 ∧ out2.Text = out1.Text ∧
      weather.CurrentCondition.head? = some cc ∧ cc.WeatherDesc.head? = some desc ∧
      out1.Tooltip =
        "<b>" ++ desc.Value ++ " " ++ cc.TempC ++ "°C</b>\n" ++
          "Feels like: " ++ cc.FeelsLikeC ++ "°C\n" ++
          "Wind: " ++ cc.WindspeedMiles ++ "mi/h\n" ++
          "Humidity: " ++ cc.Humidity ++ "%\n" ++ String.join sections1 ∧
      out2.Tooltip =
        "<b>" ++ desc.Value ++ " " ++ cc.TempC ++ "°C</b>\n" ++
          "Feels like: " ++ cc.FeelsLikeC ++ "°C\n" ++
          "Wind: " ++ cc.WindspeedMiles ++ "mi/h\n" ++
          "Humidity: " ++ cc.Humidity ++ "%\n" ++ String.join sections2 ∧
      sections1.length = weather.Weather.length ∧
      sections2.length = weather.Weather.length ∧
      (∀ i : Nat, 1 ≤ i → sections1[i]? = sections2[i]?) ∧
      (∀ day : DayEntry, weather.Weather[0]? = some day →
        ∃ (astro : AstronomyEntry) (lines1 lines2 : List String),
          day.Astronomy.head? = some astro ∧
          sections1[0]? = some (dayHeading 0 day astro ++ String.join lines1) ∧
          sections2[0]? = some (dayHeading 0 day astro ++ String.join lines2) ∧
          IsHourLines 0 hour1 day.Hourly lines1 ∧ IsHourLines 0 hour2 day.Hourly lines2 ∧
          lines2.Sublist lines1) := by
  have hsome1 : (buildReport weather hour1).isSome = true := by rw [h1]; rfl
  have hsome2 : (buildReport weather hour2).isSome = true := by
    rw [buildReport_isSome_iff] at hsome1 ⊢
    refine ⟨hsome1.1, fun i day hi => ⟨(hsome1.2 i day hi).1, ?_⟩⟩
    intro hour hmem hskip
    exact (hsome1.2 i day hi).2 hour hmem (hourSkipped_mono i hour1 hour2 hle hour hskip)
  obtain ⟨out2, h2⟩ := Option.isSome_iff_exists.1 hsome2
  obtain ⟨cc, desc, sections1, hc, hd, htext1, htip1, hlen1, hidx1⟩ :=
    buildReport_sections weather hour1 out1 h1
  obtain ⟨cc', desc', sections2, hc', hd', htext2, htip2, hlen2, hidx2⟩ :=
    buildReport_sections weather hour2 out2 h2
  rw [hc] at hc'
  cases hc'
  rw [hd] at hd'
  cases hd'
  refine ⟨out2, cc, desc, sections1, sections2, h2, by rw [htext1, htext2], hc, hd, ?_, ?_,
    hlen1, hlen2, ?_, ?_⟩
  · rw [htip1]
    simp only [String.append_assoc]
  · rw [htip2]
    simp only [String.append_assoc]
  · intro i hi
    cases hday : weather.Weather[i]? with
    | none =>
      have hlen : weather.Weather.length ≤ i := List.getElem?_eq_none_iff.1 hday
      rw [List.getElem?_eq_none_iff.2 (by omega), List.getElem?_eq_none_iff.2 (by omega)]
    | some day =>
      obtain ⟨s1, hs1, astro1, lines1, ha1, hl1, rfl⟩ := hidx1 i day hday
      obtain ⟨s2, hs2, astro2, lines2, ha2, hl2, rfl⟩ := hidx2 i day hday
      rw [ha1] at ha2
      cases ha2
      rw [hs1, hs2, isHourLines_later_day i hour1 hour2 (by omega) day.Hourly lines1 lines2 hl1 hl2]
  · intro day hday
    obtain ⟨s1, hs1, astro1, lines1, ha1, hl1, rfl⟩ := hidx1 0 day hday
    obtain ⟨s2, hs2, astro2, lines2, ha2, hl2, rfl⟩ := hidx2 0 day hday
    rw [ha1] at ha2
    cases ha2
    exact ⟨astro1, lines1, lines2, ha1, hs1, hs2, hl1, hl2,
      isHourLines_sublist 0 hour1 hour2 hle day.Hourly lines1 lines2 hl1 hl2⟩

theorem C18_hour_monotone_witness :
    ∃ (out2 : OutputData) (cc : CurrentConditionEntry) (desc : WeatherDescEntry)
      (sections1 sections2 : List String),
      buildReport sampleWeather 20 = some out2 ∧ out2.Text = sampleOutput.Text ∧
      sampleWeather.CurrentCondition.head? = some cc ∧ cc.WeatherDesc.head? = some desc ∧
      sampleOutput.Tooltip =
        "<b>" ++ desc.Value ++ " " ++ cc.TempC ++ "°C</b>\n" ++
          "Feels like: " ++ cc.FeelsLikeC ++ "°C\n" ++
          "Wind: " ++ cc.WindspeedMiles ++ "mi/h\n" ++
          "Humidity: " ++ cc.Humidity ++ "%\n" ++ String.join sections1 ∧
      out2.Tooltip =
        "<b>" ++ desc.Value ++ " " ++ cc.TempC ++ "°C</b>\n" ++
          "Feels like: " ++ cc.FeelsLikeC ++ "°C\n" ++
          "Wind: " ++ cc.WindspeedMiles ++ "mi/h\n" ++
          "Humidity: " ++ cc.Humidity ++ "%\n" ++ String.join sections2 ∧
      sections1.length = sampleWeather.Weather.length ∧
      sections2.length = sampleWeather.Weather.length ∧
      (∀ i : Nat, 1 ≤ i → sections1[i]? = sections2[i]?) ∧
      (∀ day : DayEntry, sampleWeather.Weather[0]? = some day →
        ∃ (astro : AstronomyEntry) (lines1 lines2 : List String),
          day.Astronomy.head? = some astro ∧
          sections1[0]? = some (dayHeading 0 day astro ++ String.join lines1) ∧
          sections2[0]? = some (dayHeading 0 day astro ++ String.join lines2) ∧
          IsHourLines 0 14 day.Hourly lines1 ∧ IsHourLines 0 20 day.Hourly lines2 ∧
          lines2.Sublist lines1) :=
  C18_hour_monotone sampleWeather 14 20 sampleOutput (by decide) (by decide)

end Weather
